import Mathlib

/-!
Verification of the capture-and-retrieve pipeline of the `thehook` repository.

The definitions below are a shallow embedding of `src/thehook/capture.py` and
`src/thehook/retrieve.py`.  Pure Python string manipulation is translated to
functions on `String` (one Lean `Char` per Python code point); JSON values
read from stdin, config and state files are an inductive `Json`; the external
extraction command, the clock, the SHA-256 fingerprint and the file system are
oracles carried in an environment record; Python exceptions are the `.error`
branch of `Except PyErr`.  Effects (artifact writes, indexing calls, throttle
state writes, extraction invocations) are collected in an `Effects` record.
-/

set_option autoImplicit false

namespace TheHook

/-! ### Python string primitives -/

/-- Whitespace recognised by the Python `str.strip` method (ASCII set; the
Unicode whitespace code points, which no claim exercises, are elided). -/
def pyIsSpace (c : Char) : Bool :=
  c = ' ' || c = '\t' || c = '\n' || c = '\r' || c = '\x0b' || c = '\x0c'

/-- Python `s.strip()`. -/
def pyStrip (s : String) : String :=
  String.mk (((s.data.dropWhile pyIsSpace).reverse.dropWhile pyIsSpace).reverse)

/-- Python `s.upper()` (ASCII case mapping, as in every role string used). -/
def pyUpperStr (s : String) : String :=
  String.mk (s.data.map Char.toUpper)

/-- Python `s[:n]` for `n ≥ 0` (clamped at the length). -/
def pyTake (s : String) (n : Nat) : String := String.mk (s.data.take n)

/-- Drop the first `n` characters (clamped at the length). -/
def pyDropChars (s : String) (n : Nat) : String := String.mk (s.data.drop n)

/-- Python slice `s[i:]` for an arbitrary integer start index: a nonnegative
start drops `i` characters, a negative start keeps the last `-i` characters
(with Python's clamping of out-of-range starts). -/
def pySliceFrom (s : String) (i : Int) : String :=
  if 0 ≤ i then pyDropChars s i.toNat else pyDropChars s (s.length - (-i).toNat)

/-- Python `sep.join(parts)`. -/
def joinWith (sep : String) : List String → String
  | [] => ""
  | [x] => x
  | x :: y :: xs => x ++ sep ++ joinWith sep (y :: xs)

/-! ### JSON values and Python dynamic-typing behaviour -/

/-- Python exceptions that the embedded code can raise. -/
inductive PyErr where
  | attributeError
  | typeError
  | valueError
  | keyError
  deriving DecidableEq, Repr

/-- JSON values as returned by `json.loads` (dicts are association lists with
distinct keys, as Python dicts are). -/
inductive Json where
  | null
  | bool (b : Bool)
  | num (n : Int)
  | str (s : String)
  | arr (items : List Json)
  | obj (fields : List (String × Json))

/-- Python truthiness of a JSON value. -/
def pyTruthy : Json → Bool
  | .null => false
  | .bool b => b
  | .num n => n != 0
  | .str s => s != ""
  | .arr items => !items.isEmpty
  | .obj fields => !fields.isEmpty

/-- Python `x or y` on JSON values. -/
def pyOrJ (a b : Json) : Json := if pyTruthy a then a else b

/-- Python `d.get(key, dflt)`: raises `AttributeError` when the receiver is
not a dict. -/
def pyDictGet (j : Json) (key : String) (dflt : Json) : Except PyErr Json :=
  match j with
  | .obj fields => .ok ((fields.lookup key).getD dflt)
  | _ => .error .attributeError

/-- Python `str(x)`.  The `repr` text Python produces for lists and dicts is
elided (no claim ever renders a non-atomic value). -/
def pyStr : Json → String
  | .null => "None"
  | .bool true => "True"
  | .bool false => "False"
  | .num n => toString n
  | .str s => s
  | .arr _ => "<list>"
  | .obj _ => "<dict>"

/-- Value of a nonempty all-digit character list. -/
def pyDigitsVal : List Char → Option Nat
  | [] => none
  | l => if l.all Char.isDigit then
      some (l.foldl (fun acc c => acc * 10 + (c.toNat - 48)) 0)
    else none

/-- Python `int(s)` on a string: optional sign around a digit run, with
surrounding whitespace allowed (underscore digit separators elided). -/
def pyIntOfString (s : String) : Except PyErr Int :=
  let t := ((s.data.dropWhile pyIsSpace).reverse.dropWhile pyIsSpace).reverse
  match t with
  | '-' :: rest =>
    match pyDigitsVal rest with
    | some v => .ok (-(v : Int))
    | none => .error .valueError
  | '+' :: rest =>
    match pyDigitsVal rest with
    | some v => .ok ((v : Int))
    | none => .error .valueError
  | other =>
    match pyDigitsVal other with
    | some v => .ok ((v : Int))
    | none => .error .valueError

/-- Python `int(x)` on a JSON value. -/
def pyInt : Json → Except PyErr Int
  | .num n => .ok n
  | .bool b => .ok (if b then 1 else 0)
  | .str s => pyIntOfString s
  | _ => .error .typeError

/-- Python `config.get(key, dflt)` on the runtime config dict. -/
def cfgGet (config : List (String × Json)) (key : String) (dflt : Json) : Json :=
  (config.lookup key).getD dflt

/-! ### Transcript parsing (`parse_transcript`, capture.py lines 185-245)

A transcript file is a sequence of lines.  A line that is blank or fails
`json.loads` is `none` (both are skipped by a `continue`).  A decodable line
carries an arbitrary JSON value: the source then calls `record.get("type")`
on it, which raises `AttributeError` for non-dict values, `msg.get("role",
...)`, which raises for a non-dict truthy `message` value, and
`"\n".join(parts)`, which raises `TypeError` when a text block's `text`
value is not a string — and any of these aborts the whole parse.  The
embedding therefore returns `Except PyErr (List PyMessage)`. -/

/-- The dict appended per qualifying record: `role`, `uuid` and `timestamp`
are whatever JSON values the record carried; `content` is always a string
when the parse succeeds. -/
structure PyMessage where
  role : Json
  content : String
  uuid : Json
  timestamp : Json

/-- A well-shaped message, as the hook interface documents transcript
records: every field a string.  Used by the transcript assembler. -/
structure Message where
  role : String
  content : String
  uuid : String
  timestamp : String
  deriving DecidableEq, Repr

/-- The dict a well-shaped message denotes. -/
def Message.toPy (m : Message) : PyMessage :=
  { role := Json.str m.role, content := m.content
    uuid := Json.str m.uuid, timestamp := Json.str m.timestamp }

/-- Python `j == s` for a string literal `s`: JSON values of other types
never compare equal to a string. -/
def jsonEqPyStr (j : Json) (s : String) : Bool :=
  match j with
  | .str t => t == s
  | _ => false

/-- The `parts` list of an assistant block array (lines 230-233): for every
block that is a dict whose `type` equals `"text"`, the value of
`block.get("text", "")`; non-dict blocks and other block types are
skipped. -/
def blockParts (blocks : List Json) : List Json :=
  blocks.filterMap fun b =>
    match b with
    | Json.obj bf =>
      if jsonEqPyStr ((bf.lookup "type").getD Json.null) "text" then
        some ((bf.lookup "text").getD (Json.str ""))
      else none
    | _ => none

/-- Python `"\n".join(parts)`, step one: every item must be a string, else
`TypeError` at the first offender. -/
def pyJoinParts : List Json → Except PyErr (List String)
  | [] => .ok []
  | Json.str s :: rest => do
    let tail ← pyJoinParts rest
    pure (s :: tail)
  | _ :: _ => .error .typeError

/-- Python `sep.join(parts)` over JSON items. -/
def pyJoinStrs (sep : String) (parts : List Json) : Except PyErr String := do
  let strs ← pyJoinParts parts
  pure (joinWith sep strs)

/-- The `isinstance` chain of lines 226-236: string content verbatim, block
arrays joined over their text blocks (raising on a non-string `text`
value), anything else as `""`. -/
def contentTextOf (raw_content : Json) : Except PyErr String :=
  match raw_content with
  | Json.str s => pure s
  | Json.arr blocks => pyJoinStrs "\n" (blockParts blocks)
  | _ => pure ""

/-- Processing of one decodable line (lines 216-243): `none` when the record
is skipped by the type filter, `some` message when appended, `.error` when
the source raises. -/
def parseLine (record : Json) : Except PyErr (Option PyMessage) := do
  let record_type ← pyDictGet record "type" Json.null
  if jsonEqPyStr record_type "user" || jsonEqPyStr record_type "assistant" then do
    let msg ← pyDictGet record "message" (Json.obj [])
    let role ← pyDictGet msg "role" record_type
    let raw_content ← pyDictGet msg "content" (Json.str "")
    let text ← contentTextOf raw_content
    let uuid ← pyDictGet record "uuid" (Json.str "")
    let timestamp ← pyDictGet record "timestamp" (Json.str "")
    pure (some { role := role, content := text, uuid := uuid, timestamp := timestamp })
  else
    pure none

/-- The accumulation loop over the file's lines: skipped lines contribute
nothing, a raising line aborts the whole parse. -/
def parseLines : List (Option Json) → Except PyErr (List PyMessage)
  | [] => .ok []
  | none :: rest => parseLines rest
  | some record :: rest => do
    let m ← parseLine record
    let tail ← parseLines rest
    pure (match m with | some msg => msg :: tail | none => tail)

/-- Embedding of `parse_transcript`: `none` is a path that does not exist. -/
def parse_transcript (file : Option (List (Option Json))) : Except PyErr (List PyMessage) :=
  match file with
  | none => .ok []
  | some lines => parseLines lines

/-- The `record.get("type") in ("user", "assistant")` filter, on records the
parse does not raise on (dicts). -/
def qualifiesJson (record : Json) : Bool :=
  match record with
  | Json.obj fields =>
    jsonEqPyStr ((fields.lookup "type").getD Json.null) "user" ||
      jsonEqPyStr ((fields.lookup "type").getD Json.null) "assistant"
  | _ => false

/-- Qualifying records among the decodable lines of a file. -/
def qualRecordsJson (lines : List (Option Json)) : List Json :=
  (lines.filterMap id).filter qualifiesJson

/-- The role the source stores for a qualifying record:
`msg.get("role", record_type)` with `msg = record.get("message", {})`. -/
def recordRole (record : Json) : Json :=
  match record with
  | Json.obj fields =>
    match (fields.lookup "message").getD (Json.obj []) with
    | Json.obj mfields =>
      (mfields.lookup "role").getD ((fields.lookup "type").getD Json.null)
    | _ => Json.null
  | _ => Json.null

/-- A content block on which the join step cannot raise: if it is a dict of
type `"text"`, its `text` value is a string. -/
def blockWellShaped : Json → Bool
  | Json.obj bf =>
    if jsonEqPyStr ((bf.lookup "type").getD Json.null) "text" then
      match (bf.lookup "text").getD (Json.str "") with
      | Json.str _ => true
      | _ => false
    else true
  | _ => true

/-- A decodable record on which the parse cannot raise: a dict whose
`message` value, when the record qualifies, is a dict (or absent) with
well-shaped content blocks. -/
def recordWellShaped (record : Json) : Bool :=
  match record with
  | Json.obj fields =>
    if jsonEqPyStr ((fields.lookup "type").getD Json.null) "user" ||
        jsonEqPyStr ((fields.lookup "type").getD Json.null) "assistant" then
      match (fields.lookup "message").getD (Json.obj []) with
      | Json.obj mfields =>
        match (mfields.lookup "content").getD (Json.str "") with
        | Json.arr blocks => blocks.all blockWellShaped
        | _ => true
      | _ => false
    else true
  | _ => false

/-- A transcript line the parse cannot raise on. -/
def lineWellShaped : Option Json → Bool
  | none => true
  | some record => recordWellShaped record

/-! ### Transcript assembly (`assemble_transcript_text`, lines 248-273) -/

/-- The truncation marker prepended when the assembled text is over budget. -/
def truncationMarker : String := "...[truncated]...\n\n"

/-- Embedding of `assemble_transcript_text`.  `max_chars` is an `Int` because
lite mode feeds it an arbitrary `int(...)` conversion of a config value.  The
truncation slice is Python's `full[-max_chars:]`. -/
def assemble_transcript_text (messages : List Message) (max_chars : Int) : String :=
  let parts := messages.filterMap fun msg =>
    let content := pyStrip msg.content
    if content ≠ "" then some ("[" ++ pyUpperStr msg.role ++ "]: " ++ content) else none
  let full := joinWith "\n\n" parts
  if (full.length : Int) > max_chars then
    truncationMarker ++ pySliceFrom full (-max_chars)
  else
    full

/-- The per-message loop of `assemble_transcript_text` over parsed dicts:
`msg["role"].upper()` raises `AttributeError` when the stored role is not a
string. -/
def assembleParts : List PyMessage → Except PyErr (List String)
  | [] => .ok []
  | m :: rest => do
    let role ← match m.role with
      | Json.str r => Except.ok (pyUpperStr r)
      | _ => Except.error PyErr.attributeError
    let content := pyStrip m.content
    let tail ← assembleParts rest
    pure (if content ≠ "" then ("[" ++ role ++ "]: " ++ content) :: tail else tail)

/-- `assemble_transcript_text` as `run_capture` actually reaches it: applied
to the parsed message dicts, raising on a non-string role. -/
def assemble_transcript_text_j (messages : List PyMessage) (max_chars : Int) :
    Except PyErr String := do
  let parts ← assembleParts messages
  let full := joinWith "\n\n" parts
  pure (if (full.length : Int) > max_chars then
    truncationMarker ++ pySliceFrom full (-max_chars)
  else
    full)

/-! ### Extraction orchestration (`run_claude_extraction`, lines 276-305) -/

/-- Outcome of the spawned `claude -p` child process, as the surrounding
Python observes it: normal completion with decoded stdout (the
`errors="replace"` decoding never fails and is modelled as the decoded
string) and an exit status, a `TimeoutExpired` wait, or a spawn failure
(`OSError` / `FileNotFoundError`). -/
inductive ProcOutcome where
  | completed (stdout : String) (returncode : Int)
  | timeoutExpired
  | spawnFailure
  deriving DecidableEq, Repr

/-- Embedding of `run_claude_extraction`.  All three exceptional paths are
caught in the source, so the embedding is a total function into `Option`:
failure is the `none` value, never an exception. -/
def run_claude_extraction (outcome : ProcOutcome) : Option String :=
  match outcome with
  | .completed out rc =>
    if rc = 0 then
      (if pyStrip out = "" then none else some (pyStrip out))
    else none
  | .timeoutExpired => none
  | .spawnFailure => none

/-- Python truthiness of the `str | None` extraction result. -/
def pyTruthyOptStr : Option String → Bool
  | none => false
  | some s => s != ""

/-! ### Session artifact files (`write_session_file` / `write_stub_summary`,
lines 308-377) -/

/-- A written artifact: its filename and full text. -/
structure SessionFile where
  filename : String
  body : String
  deriving DecidableEq, Repr

/-- Filename `f"{timestamp[:10]}-{safe_id}.md"` with
`safe_id = session_id[:8] if len(session_id) > 8 else session_id`. -/
def sessionFilename (timestamp : String) (session_id : String) : String :=
  pyTake timestamp 10 ++ "-" ++
    (if session_id.length > 8 then pyTake session_id 8 else session_id) ++ ".md"

/-- The YAML frontmatter block of an artifact. -/
def frontmatterFor (session_id : String) (timestamp : String) (transcript_path : String) : String :=
  "---\nsession_id: " ++ session_id ++ "\ntimestamp: " ++ timestamp ++
    "\ntranscript_path: " ++ transcript_path ++ "\n---\n\n"

/-- Embedding of `write_session_file` for a string session id (the shape the
hook interface documents); `nowIso` is `datetime.now(timezone.utc).isoformat()`. -/
def write_session_file (nowIso : String) (session_id : String) (transcript_path : String)
    (content : String) : SessionFile :=
  { filename := sessionFilename nowIso session_id
    body := frontmatterFor session_id nowIso transcript_path ++ content }

/-- Fixed tail of a stub body. -/
def stubTail : String :=
  "## CONVENTIONS\nNone this session.\n\n## DECISIONS\nNone this session.\n\n## GOTCHAS\nNone this session.\n"

/-- Body written by `write_stub_summary`. -/
def stub_body (message_count : Nat) (reason : String) : String :=
  "## SUMMARY\nExtraction " ++ reason ++
    (". Session had " ++ (toString message_count ++ (" messages.\n\n" ++ stubTail)))

/-- Substring occurrence, used to state what a stub body carries. -/
def containsText (s : String) (pat : String) : Prop :=
  ∃ a b : String, s = a ++ (pat ++ b)

/-- Python `len(x)` on a JSON value (`TypeError` for unsized values). -/
def jsonLen : Json → Except PyErr Int
  | .str s => .ok (s.length : Int)
  | .arr items => .ok (items.length : Int)
  | .obj fields => .ok (fields.length : Int)
  | _ => .error .typeError

/-- `write_session_file` over the JSON-typed `session_id` / `transcript_path`
that `run_capture` extracts from the hook payload.  For a string session id
this is `write_session_file`; for other values Python takes `len(session_id)`
(raising `TypeError` on unsized values) and formats the value into the
filename and frontmatter (that cosmetic `repr` text is elided via `pyStr`). -/
def write_session_file_j (nowIso : String) (session_id transcript_path : Json)
    (content : String) : Except PyErr SessionFile :=
  match session_id with
  | .str s => .ok (write_session_file nowIso s (pyStr transcript_path) content)
  | other => do
    let n ← jsonLen other
    let safe ← if n > 8 then
        match other with
        | .arr items => pure (Json.arr (items.take 8))
        | _ => Except.error PyErr.typeError
      else pure other
    pure { filename := pyTake nowIso 10 ++ "-" ++ pyStr safe ++ ".md"
           body := frontmatterFor (pyStr other) nowIso (pyStr transcript_path) ++ content }

/-- Embedding of `write_stub_summary` (a stub body via `write_session_file`). -/
def write_stub_summary (nowIso : String) (session_id transcript_path : Json)
    (message_count : Nat) (reason : String) : Except PyErr SessionFile :=
  write_session_file_j nowIso session_id transcript_path (stub_body message_count reason)

/-! ### Throttle store (lines 97-153) -/

/-- The three stored values `_should_skip_intermediate_capture` reads, after
their `int(...)` / `str(...)` conversions. -/
structure StateFields where
  last_capture_at : Int
  session_id : String
  transcript_hash : String
  deriving DecidableEq, Repr

/-- Result of `_read_intermediate_state`: the parsed state-file JSON, or `{}`
when the file is missing or `json.loads` fails (both are `none`). -/
def readIntermediateState (stateFileParse : Option Json) : Json :=
  stateFileParse.getD (Json.obj [])

/-- The three reads at the top of `_should_skip_intermediate_capture`:
`int(state.get("last_capture_at", 0))`, `str(state.get("session_id", ""))`,
`str(state.get("transcript_hash", ""))`. -/
def readStateFields (state : Json) : Except PyErr StateFields := do
  let lastAtJ ← pyDictGet state "last_capture_at" (Json.num 0)
  let lastAt ← pyInt lastAtJ
  let sidJ ← pyDictGet state "session_id" (Json.str "")
  let hashJ ← pyDictGet state "transcript_hash" (Json.str "")
  pure { last_capture_at := lastAt, session_id := pyStr sidJ, transcript_hash := pyStr hashJ }

/-- The two guards of `_should_skip_intermediate_capture` (lines 129-137):
the unchanged-content guard, then the minimum-interval guard with the
interval clamped below at zero by `max(0, min_interval_seconds)`. -/
def skipDecision (st : StateFields) (now : Int) (session_id transcript_hash : String)
    (min_interval_seconds : Int) : Bool :=
  if st.session_id == session_id && st.transcript_hash == transcript_hash then true
  else if now - st.last_capture_at < max 0 min_interval_seconds then true
  else false

/-- Embedding of `_should_skip_intermediate_capture`; `now` is the
`int(time.time())` reading. -/
def shouldSkipIntermediateCapture (stateFileParse : Option Json) (now : Int)
    (session_id transcript_hash : String) (min_interval_seconds : Int) : Except PyErr Bool := do
  let st ← readStateFields (readIntermediateState stateFileParse)
  pure (skipDecision st now session_id transcript_hash min_interval_seconds)

/-- The record `_mark_intermediate_capture` persists. -/
structure StateWrite where
  session_id : String
  transcript_hash : String
  last_capture_at : Int
  updated_at : String
  deriving DecidableEq, Repr

/-! ### Capture controller (`run_capture`, lines 380-468) -/

/-- Invocation mode of `run_capture`. -/
inductive Mode where
  | full
  | lite
  deriving DecidableEq, Repr

/-- Externally observable effects of one `run_capture` invocation: artifact
writes via `write_session_file`, `_index_session_file` submissions, throttle
state writes via `_mark_intermediate_capture`, and `run_claude_extraction`
invocations as (prompt, timeout) pairs. -/
structure Effects where
  writes : List SessionFile
  indexCalls : List SessionFile
  stateWrites : List StateWrite
  extractionCalls : List (String × Int)
  deriving DecidableEq, Repr

/-- No effects (silent return). -/
def noEffects : Effects := ⟨[], [], [], []⟩

/-- Environment of one invocation: the oracles `run_capture` consults.
`stdinParse` is `none` when stdin is empty or not decodable JSON (the two
conditions `read_hook_input` maps to `{}`); `readFile` maps a transcript path
to its lines (`none` = file does not exist); `config` is the dict returned by
`_load_runtime_config` with its values still raw JSON; `stateFileParse` feeds
`_read_intermediate_state`; `proc prompt timeout` is the child-process
outcome observed by `run_claude_extraction`; `hashFn` is the SHA-256 hex
digest; `now` / `nowIso` are the clock readings. -/
structure HookEnv where
  stdinParse : Option Json
  readFile : String → Option (List (Option Json))
  config : List (String × Json)
  stateFileParse : Option Json
  proc : String → Int → ProcOutcome
  hashFn : String → String
  now : Int
  nowIso : String

/-- Embedding of `read_hook_input`: empty stdin and `JSONDecodeError` give
`{}`; any decodable JSON value is returned as is. -/
def readHookInput (stdinParse : Option Json) : Json :=
  stdinParse.getD (Json.obj [])

/-- Python `x[0]` as used on `workspace_roots` (list indexing; a string yields
its first character, a dict raises `KeyError`, other values `TypeError`). -/
def pyIndexZero (j : Json) : Except PyErr Json :=
  match j with
  | .arr (x :: _) => .ok x
  | .arr [] => .error .keyError
  | .str s =>
    match s.data with
    | c :: _ => .ok (Json.str (String.mk [c]))
    | [] => .error .keyError
  | .obj _ => .error .keyError
  | _ => .error .typeError

/-- Embedding of `_resolve_project_dir`: `cwd` if truthy, else the first
workspace root if any, else `"."`; `Path()` then requires a string. -/
def resolveProjectDir (hook : Json) : Except PyErr String := do
  let workspaceRoots ← pyDictGet hook "workspace_roots" (Json.arr [])
  let cwdJ ← pyDictGet hook "cwd" Json.null
  let cwd ← if pyTruthy cwdJ then pure cwdJ
    else if pyTruthy workspaceRoots then pyIndexZero workspaceRoots
    else pure (Json.str ".")
  match cwd with
  | .str s => pure s
  | _ => Except.error PyErr.typeError

/-- `Path(transcript_path)` requires a string (`TypeError` otherwise). -/
def asPathString (j : Json) : Except PyErr String :=
  match j with
  | .str s => .ok s
  | _ => .error .typeError

/-- Head of `EXTRACTION_PROMPT_TEMPLATE` (everything before the
`transcript_text` placeholder). -/
def extractionPromptHead : String :=
  "You are a technical knowledge extractor. Analyze the following Claude session transcript and extract concrete, reusable knowledge from it.\n\nFocus exclusively on:\n- **conventions**: coding patterns, style choices, naming standards, and structural rules established during the session\n- **decisions**: architectural and implementation choices made, and the reasoning behind them\n- **gotchas**: non-obvious pitfalls, edge cases, or mistakes discovered and resolved\n\nDo NOT summarise every action taken. Only extract what would genuinely help a developer picking up this project later.\n\n## Output format\n\nRespond with exactly these four sections. If a section has nothing to report, write \"None this session.\" under it.\n\n## SUMMARY\nOne or two sentences describing what was accomplished in this session.\n\n## CONVENTIONS\nA bullet list of concrete conventions established or reinforced. Only include concrete conventions — things like \"use X not Y\", \"files go in Z directory\", \"always do A before B\". Skip generic best practices.\n\n## DECISIONS\nA bullet list of decisions that are specific to this project — technology choices, trade-offs accepted, scope limitations. Only include decisions that are specific to this project, not general software engineering principles.\n\n## GOTCHAS\nA bullet list of non-obvious issues, edge cases, or traps encountered. Include what the symptom was and how it was resolved.\n\n---\n\n## Session transcript\n\n"

/-- Head of `INTERMEDIATE_EXTRACTION_PROMPT_TEMPLATE`. -/
def intermediatePromptHead : String :=
  "You are extracting short-term project memory from an in-progress coding session.\n\nFocus on what changed recently and only keep high-signal details:\n- **conventions** newly established or reinforced\n- **decisions** with trade-offs or scope implications\n- **gotchas** that could cause future regressions\n\nKeep it concise and concrete. Skip generic guidance and routine actions.\n\n## Output format\n\nRespond with exactly these four sections. If a section has nothing to report, write \"None this session.\" under it.\n\n## SUMMARY\nOne short sentence on recent progress.\n\n## CONVENTIONS\nBullet list of concrete conventions.\n\n## DECISIONS\nBullet list of project-specific decisions.\n\n## GOTCHAS\nBullet list of non-obvious issues and mitigations.\n\n---\n\n## Session transcript\n\n"

/-- `template.format(transcript_text=...)`: both templates end with the
placeholder followed by a newline. -/
def renderPrompt (head transcript_text : String) : String :=
  head ++ transcript_text ++ "\n"

/-- The record `_mark_intermediate_capture` writes (lines 145-153). -/
def mkStateWrite (env : HookEnv) (session_id transcript_hash : String) : StateWrite :=
  { session_id := session_id
    transcript_hash := transcript_hash
    last_capture_at := env.now
    updated_at := env.nowIso }

/-- Shared tail of `run_capture` (lines 454-467): render the prompt, run
extraction, and on a truthy result write and index the artifact (marking the
throttle state in lite mode), otherwise mark-and-return in lite mode or write
and index a timeout stub in full mode. -/
def finishCapture (env : HookEnv) (mode : Mode) (session_id transcript_path : Json)
    (transcript_text transcript_hash : String) (head : String) (timeout_seconds : Int)
    (message_count : Nat) : Except PyErr Effects := do
  let prompt := renderPrompt head transcript_text
  let result := run_claude_extraction (env.proc prompt timeout_seconds)
  if pyTruthyOptStr result then do
    let f ← write_session_file_j env.nowIso session_id transcript_path (result.getD "")
    let st := if mode = Mode.lite then [mkStateWrite env (pyStr session_id) transcript_hash] else []
    pure { writes := [f], indexCalls := [f], stateWrites := st,
           extractionCalls := [(prompt, timeout_seconds)] }
  else if mode = Mode.lite then
    pure { writes := [], indexCalls := [],
           stateWrites := [mkStateWrite env (pyStr session_id) transcript_hash],
           extractionCalls := [(prompt, timeout_seconds)] }
  else do
    let f ← write_session_file_j env.nowIso session_id transcript_path
      (stub_body message_count "timeout")
    pure { writes := [f], indexCalls := [f], stateWrites := [],
           extractionCalls := [(prompt, timeout_seconds)] }

/-- Embedding of `run_capture`.  The constants are the source module's:
full mode uses 50000 assembly characters and an 85 second deadline; lite mode
reads its budgets from the config with defaults 12000 / 20 / 180. -/
def runCapture (env : HookEnv) (mode : Mode) : Except PyErr Effects := do
  let hook := readHookInput env.stdinParse
  if pyTruthy hook = false then
    pure noEffects
  else do
    let sidRaw ← pyDictGet hook "session_id" Json.null
    let convId ← pyDictGet hook "conversation_id" (Json.str "unknown")
    let session_id := pyOrJ sidRaw convId
    let tpRaw ← pyDictGet hook "transcript_path" Json.null
    let transcript_path := pyOrJ tpRaw (Json.str "")
    let _projectDir ← resolveProjectDir hook
    let config := env.config
    if pyTruthy transcript_path = false then
      if mode = Mode.lite then pure noEffects
      else do
        let f ← write_stub_summary env.nowIso session_id transcript_path 0 "empty transcript_path"
        pure { writes := [f], indexCalls := [f], stateWrites := [], extractionCalls := [] }
    else do
      let tp ← asPathString transcript_path
      let messages ← parse_transcript (env.readFile tp)
      if messages.isEmpty then
        if mode = Mode.lite then pure noEffects
        else do
          let f ← write_stub_summary env.nowIso session_id transcript_path 0 "empty transcript"
          pure { writes := [f], indexCalls := [f], stateWrites := [], extractionCalls := [] }
      else
        match mode with
        | Mode.lite => do
          if pyTruthy (cfgGet config "intermediate_capture_enabled" (Json.bool true)) = false then
            pure noEffects
          else do
            let max_chars ← pyInt (cfgGet config "intermediate_capture_max_transcript_chars" (Json.num 12000))
            let timeout_seconds ← pyInt (cfgGet config "intermediate_capture_timeout_seconds" (Json.num 20))
            let min_interval ← pyInt (cfgGet config "intermediate_capture_min_interval_seconds" (Json.num 180))
            let transcript_text ← assemble_transcript_text_j messages max_chars
            let transcript_hash := env.hashFn transcript_text
            let skip ← shouldSkipIntermediateCapture env.stateFileParse env.now
              (pyStr session_id) transcript_hash min_interval
            if skip then pure noEffects
            else finishCapture env Mode.lite session_id transcript_path transcript_text transcript_hash intermediatePromptHead timeout_seconds messages.length
        | Mode.full => do
          let transcript_text ← assemble_transcript_text_j messages 50000
          finishCapture env Mode.full session_id transcript_path transcript_text "" extractionPromptHead 85 messages.length

/-! ### Retrieval assembly (`retrieve.py`) -/

/-- The `{"timestamp": {"$gte": cutoff}}` metadata filter built by
`_recency_where_clause`. -/
structure WhereClause where
  field : String
  op : String
  cutoff : String
  deriving DecidableEq, Repr

/-- Embedding of `_recency_where_clause`; `cutoffIso` is the rendering of
`now - timedelta(days=recency_days)` (datetime arithmetic is external). -/
def recencyWhereClause (recency_days : Int) (cutoffIso : String) : Option WhereClause :=
  if recency_days ≤ 0 then none
  else some { field := "timestamp", op := "$gte", cutoff := cutoffIso }

/-- One `collection.query` call: result limit and optional metadata filter
(the constant query text is omitted). -/
structure QueryCall where
  n_results : Nat
  whereFilter : Option WhereClause
  deriving DecidableEq, Repr

/-- The vector-store collaborator: document count plus a query oracle giving
the `documents` entry of a response for a limit and optional filter. -/
structure VectorStore where
  count : Nat
  query : Nat → Option WhereClause → List (List String)

/-- Embedding of `_extract_documents`. -/
def extract_documents (results : List (List String)) : List String :=
  match results with
  | [] => []
  | docs :: _ => docs

/-- `actual_n = min(max(1, n_results), count)` (line 47). -/
def actualN (store : VectorStore) (n_results : Int) : Nat :=
  (min (max 1 n_results) (store.count : Int)).toNat

/-- Embedding of `query_sessions` (lines 25-62), returning the documents and
the trace of `collection.query` calls issued. -/
def query_sessions (store : VectorStore) (n_results : Int) (recency_days : Int)
    (recency_fallback_global : Bool) (cutoffIso : String) : List String × List QueryCall :=
  if store.count = 0 then ([], [])
  else
    let an := actualN store n_results
    match recencyWhereClause recency_days cutoffIso with
    | some w =>
      let filtered_docs := extract_documents (store.query an (some w))
      if !filtered_docs.isEmpty || !recency_fallback_global then
        (filtered_docs, [⟨an, some w⟩])
      else
        (extract_documents (store.query an none), [⟨an, some w⟩, ⟨an, none⟩])
    | none =>
      (extract_documents (store.query an none), [⟨an, none⟩])

/-- Embedding of `format_context`: the greedy accumulation loop over the
documents, with the character budget `token_budget * 4`. -/
def fcParts (docs : List String) (max_chars : Int) (total : Int) : List String :=
  match docs with
  | [] => []
  | doc :: rest =>
    if total + (doc.length : Int) > max_chars then
      if max_chars - total > 0 then [pyTake doc (max_chars - total).toNat] else []
    else
      doc :: fcParts rest max_chars (total + (doc.length : Int))

/-- Embedding of `format_context` (lines 65-84). -/
def format_context (documents : List String) (token_budget : Int) : String :=
  joinWith "\n\n---\n\n" (fcParts documents (token_budget * 4) 0)

/-! ### Concrete instances used by witnesses -/

/-- A one-record transcript line: a user record with string content. -/
def sampleRecordJson : Json :=
  Json.obj [("type", Json.str "user"),
    ("message", Json.obj [("role", Json.str "user"), ("content", Json.str "hello")]),
    ("uuid", Json.str "u1"), ("timestamp", Json.str "t1")]

/-- A concrete environment: a well-formed hook payload, a one-message
transcript at `/t.jsonl`, an empty config (so every default applies), no
prior throttle state, and an extraction command that always hits the
deadline. -/
def sampleEnv : HookEnv :=
  { stdinParse := some (Json.obj [("session_id", Json.str "sess-1"),
      ("transcript_path", Json.str "/t.jsonl"), ("cwd", Json.str "/proj")])
    readFile := fun p => if p = "/t.jsonl" then some [some sampleRecordJson] else none
    config := []
    stateFileParse := none
    proc := fun _ _ => ProcOutcome.timeoutExpired
    hashFn := fun _ => "fp"
    now := 1000
    nowIso := "2026-02-24T10:00:00+00:00" }

/-- The message `parse_transcript` produces from `sampleRecordJson`. -/
def sampleMessage : Message :=
  { role := "user", content := "hello", uuid := "u1", timestamp := "t1" }

/-- The same invocation as `sampleEnv` but with a numeric `session_id` in
the hook payload. -/
def envNumericSessionId : HookEnv :=
  { sampleEnv with stdinParse := some (Json.obj [("session_id", Json.num 5),
      ("transcript_path", Json.str "/t.jsonl"), ("cwd", Json.str "/proj")]) }

/-- A user record whose message object carries a numeric `role`. -/
def numericRoleRecord : Json :=
  Json.obj [("type", Json.str "user"),
    ("message", Json.obj [("role", Json.num 5), ("content", Json.str "hi")])]

/-- The same invocation as `sampleEnv` but with a transcript whose one user
record carries a numeric `role` in its message object. -/
def envNumericRole : HookEnv :=
  { sampleEnv with
    readFile := fun p => if p = "/t.jsonl" then some [some numericRoleRecord] else none }

/-- A two-document store whose recency-filtered responses are empty while the
unfiltered response has two documents. -/
def sampleStore : VectorStore :=
  { count := 2
    query := fun _ w => match w with | some _ => [[]] | none => [["g1", "g2"]] }

end TheHook

namespace TheHook

/-! ### Helper lemmas -/

theorem pyDropChars_length (s : String) (n : Nat) :
    (pyDropChars s n).length = s.length - n := by
  show (s.data.drop n).length = s.data.length - n
  exact List.length_drop n s.data

theorem pyTake_data (s : String) (n : Nat) : (pyTake s n).data = s.data.take n := rfl

theorem strLength_eq_data (s : String) : s.length = s.data.length := rfl

theorem run_claude_extraction_ne_empty {o : ProcOutcome} {s : String}
    (h : run_claude_extraction o = some s) : s ≠ "" := by
  cases o with
  | completed out rc =>
    by_cases h0 : rc = 0
    · by_cases hs : pyStrip out = ""
      · simp [run_claude_extraction, h0, hs] at h
      · simp [run_claude_extraction, h0, hs] at h
        exact h ▸ hs
    · simp [run_claude_extraction, h0] at h
  | timeoutExpired => simp [run_claude_extraction] at h
  | spawnFailure => simp [run_claude_extraction] at h

theorem map_toPy_isEmpty_false {ms : List Message} (h : ms ≠ []) :
    (ms.map Message.toPy).isEmpty = false := by
  cases ms with
  | nil => exact absurd rfl h
  | cons a l => rfl

theorem assembleParts_toPy (ms : List Message) :
    assembleParts (ms.map Message.toPy) = Except.ok (ms.filterMap fun msg =>
      let content := pyStrip msg.content
      if content ≠ "" then some ("[" ++ pyUpperStr msg.role ++ "]: " ++ content) else none) := by
  induction ms with
  | nil => rfl
  | cons m rest ih =>
    by_cases hc : pyStrip m.content ≠ ""
    · simp [assembleParts, Message.toPy, ih, hc, List.filterMap_cons,
        Except.instMonad, Except.bind, pure, Except.pure]
    · simp [assembleParts, Message.toPy, ih, hc, List.filterMap_cons,
        Except.instMonad, Except.bind, pure, Except.pure]

theorem assemble_toPy (ms : List Message) (mc : Int) :
    assemble_transcript_text_j (ms.map Message.toPy) mc
      = Except.ok (assemble_transcript_text ms mc) := by
  unfold assemble_transcript_text_j assemble_transcript_text
  rw [assembleParts_toPy]
  simp [Except.instMonad, Except.bind, pure, Except.pure]

theorem pyJoinParts_ok (parts : List Json) (h : ∀ j ∈ parts, ∃ s, j = Json.str s) :
    ∃ l, pyJoinParts parts = Except.ok l := by
  induction parts with
  | nil => exact ⟨[], rfl⟩
  | cons j rest ih =>
    obtain ⟨s, hs⟩ := h j (List.mem_cons_self j rest)
    obtain ⟨l, hl⟩ := ih fun x hx => h x (List.mem_cons_of_mem j hx)
    subst hs
    exact ⟨s :: l, by simp [pyJoinParts, hl, Except.instMonad, Except.bind, pure, Except.pure]⟩

theorem blockParts_strings (blocks : List Json) (h : blocks.all blockWellShaped = true) :
    ∀ j ∈ blockParts blocks, ∃ s, j = Json.str s := by
  intro j hj
  unfold blockParts at hj
  obtain ⟨b, hb, hfb⟩ := List.mem_filterMap.mp hj
  have hbw : blockWellShaped b = true := List.all_eq_true.mp h b hb
  cases b with
  | obj bf =>
    have hfb2 : (if jsonEqPyStr ((bf.lookup "type").getD Json.null) "text" = true then
        some ((bf.lookup "text").getD (Json.str "")) else none) = some j := hfb
    by_cases ht : jsonEqPyStr ((bf.lookup "type").getD Json.null) "text" = true
    · rw [if_pos ht] at hfb2
      have hbw2 : (match (bf.lookup "text").getD (Json.str "") with
          | Json.str _ => true
          | _ => false) = true := by
        have hbw1 : (if jsonEqPyStr ((bf.lookup "type").getD Json.null) "text" = true then
            (match (bf.lookup "text").getD (Json.str "") with
             | Json.str _ => true
             | _ => false)
          else true) = true := hbw
        rwa [if_pos ht] at hbw1
      cases hv : (bf.lookup "text").getD (Json.str "") with
      | str s =>
        refine ⟨s, ?_⟩
        rw [← Option.some.injEq, ← hfb2, hv]
      | null => rw [hv] at hbw2; cases hbw2
      | bool b2 => rw [hv] at hbw2; cases hbw2
      | num n2 => rw [hv] at hbw2; cases hbw2
      | arr l2 => rw [hv] at hbw2; cases hbw2
      | obj f2 => rw [hv] at hbw2; cases hbw2
    · rw [if_neg ht] at hfb2
      exact Option.noConfusion hfb2
  | null => exact Option.noConfusion hfb
  | bool b2 => exact Option.noConfusion hfb
  | num n2 => exact Option.noConfusion hfb
  | str s2 => exact Option.noConfusion hfb
  | arr l2 => exact Option.noConfusion hfb

theorem contentTextOf_ok (v : Json)
    (h : (match v with | Json.arr blocks => blocks.all blockWellShaped | _ => true) = true) :
    ∃ t, contentTextOf v = Except.ok t := by
  cases v with
  | str s => exact ⟨s, rfl⟩
  | arr blocks =>
    obtain ⟨l, hl⟩ := pyJoinParts_ok (blockParts blocks) (blockParts_strings blocks h)
    exact ⟨joinWith "\n" l,
      by simp [contentTextOf, pyJoinStrs, hl, Except.instMonad, Except.bind, pure, Except.pure]⟩
  | null => exact ⟨"", rfl⟩
  | bool b => exact ⟨"", rfl⟩
  | num n => exact ⟨"", rfl⟩
  | obj f => exact ⟨"", rfl⟩

theorem parseLine_wellShaped (record : Json) (hws : recordWellShaped record = true) :
    (qualifiesJson record = false → parseLine record = Except.ok none) ∧
    (qualifiesJson record = true →
      ∃ m : PyMessage, parseLine record = Except.ok (some m) ∧ m.role = recordRole record) := by
  cases record with
  | obj fields =>
    constructor
    · intro hq
      have hq0 : (jsonEqPyStr ((fields.lookup "type").getD Json.null) "user" ||
          jsonEqPyStr ((fields.lookup "type").getD Json.null) "assistant") = false := hq
      unfold parseLine
      simp only [pyDictGet, Except.instMonad, Except.bind]
      rw [if_neg (by simp [hq0])]
      rfl
    · intro hq
      have hq1 : (jsonEqPyStr ((fields.lookup "type").getD Json.null) "user" ||
          jsonEqPyStr ((fields.lookup "type").getD Json.null) "assistant") = true := hq
      have hws1 : (match (fields.lookup "message").getD (Json.obj []) with
          | Json.obj mfields =>
            (match (mfields.lookup "content").getD (Json.str "") with
             | Json.arr blocks => blocks.all blockWellShaped
             | _ => true)
          | _ => false) = true := by
        have hws0 : (if (jsonEqPyStr ((fields.lookup "type").getD Json.null) "user" ||
              jsonEqPyStr ((fields.lookup "type").getD Json.null) "assistant") = true then
            (match (fields.lookup "message").getD (Json.obj []) with
             | Json.obj mfields =>
               (match (mfields.lookup "content").getD (Json.str "") with
                | Json.arr blocks => blocks.all blockWellShaped
                | _ => true)
             | _ => false)
          else true) = true := hws
        rwa [if_pos hq1] at hws0
      cases hmsg : (fields.lookup "message").getD (Json.obj []) with
      | obj mfields =>
        rw [hmsg] at hws1
        obtain ⟨t, ht⟩ := contentTextOf_ok ((mfields.lookup "content").getD (Json.str "")) hws1
        refine ⟨{ role := (mfields.lookup "role").getD ((fields.lookup "type").getD Json.null)
                  content := t
                  uuid := (fields.lookup "uuid").getD (Json.str "")
                  timestamp := (fields.lookup "timestamp").getD (Json.str "") }, ?_, ?_⟩
        · unfold parseLine
          simp only [pyDictGet, Except.instMonad, Except.bind]
          rw [if_pos hq1]
          simp only [hmsg, pyDictGet, Except.instMonad, Except.bind, ht]
          rfl
        · simp [recordRole, hmsg]
      | null => rw [hmsg] at hws1; cases hws1
      | bool b2 => rw [hmsg] at hws1; cases hws1
      | num n2 => rw [hmsg] at hws1; cases hws1
      | str s2 => rw [hmsg] at hws1; cases hws1
      | arr l2 => rw [hmsg] at hws1; cases hws1
  | null => cases hws
  | bool b2 => cases hws
  | num n2 => cases hws
  | str s2 => cases hws
  | arr l2 => cases hws

theorem parseLines_wellShaped (lines : List (Option Json))
    (hws : ∀ l ∈ lines, lineWellShaped l = true) :
    ∃ msgs : List PyMessage, parseLines lines = Except.ok msgs ∧
      msgs.length = (qualRecordsJson lines).length ∧
      List.Forall₂ (fun (record : Json) (m : PyMessage) => m.role = recordRole record)
        (qualRecordsJson lines) msgs := by
  induction lines with
  | nil => exact ⟨[], rfl, rfl, List.Forall₂.nil⟩
  | cons l rest ih =>
    obtain ⟨msgs, hm, hlen, hfa⟩ := ih fun x hx => hws x (List.mem_cons_of_mem l hx)
    have hl : lineWellShaped l = true := hws l (List.mem_cons_self l rest)
    cases l with
    | none =>
      have hqr : qualRecordsJson (none :: rest) = qualRecordsJson rest := by
        simp [qualRecordsJson, List.filterMap_cons]
      refine ⟨msgs, ?_, ?_, ?_⟩
      · simpa [parseLines] using hm
      · rw [hqr]; exact hlen
      · rw [hqr]; exact hfa
    | some record =>
      have hrw : recordWellShaped record = true := hl
      by_cases hq : qualifiesJson record = true
      · obtain ⟨m, hpl, hrole⟩ := (parseLine_wellShaped record hrw).2 hq
        have hqr : qualRecordsJson (some record :: rest) = record :: qualRecordsJson rest := by
          simp [qualRecordsJson, List.filterMap_cons, List.filter_cons, hq]
        refine ⟨m :: msgs, ?_, ?_, ?_⟩
        · simp [parseLines, hpl, hm, Except.instMonad, Except.bind, pure, Except.pure]
        · rw [hqr]
          simp [hlen]
        · rw [hqr]
          exact List.Forall₂.cons hrole hfa
      · have hq0 : qualifiesJson record = false := by
          cases hqv : qualifiesJson record with
          | true => exact absurd hqv hq
          | false => rfl
        have hpl := (parseLine_wellShaped record hrw).1 hq0
        have hqr : qualRecordsJson (some record :: rest) = qualRecordsJson rest := by
          simp [qualRecordsJson, List.filterMap_cons, List.filter_cons, hq0]
        refine ⟨msgs, ?_, ?_, ?_⟩
        · simp [parseLines, hpl, hm, Except.instMonad, Except.bind, pure, Except.pure]
        · rw [hqr]; exact hlen
        · rw [hqr]; exact hfa

theorem stub_contains_timeout (n : Nat) :
    containsText (stub_body n "timeout") "Extraction timeout" := by
  refine ⟨"## SUMMARY\n", ". Session had " ++ (toString n ++ (" messages.\n\n" ++ stubTail)), ?_⟩
  show ("## SUMMARY\nExtraction " ++ "timeout") ++
      (". Session had " ++ (toString n ++ (" messages.\n\n" ++ stubTail))) = _
  rw [show ("## SUMMARY\nExtraction " ++ "timeout") = "## SUMMARY\n" ++ "Extraction timeout" by decide]
  rw [String.append_assoc]

theorem stub_contains_count (n : Nat) :
    containsText (stub_body n "timeout") ("Session had " ++ toString n) := by
  refine ⟨"## SUMMARY\nExtraction timeout. ", " messages.\n\n" ++ stubTail, ?_⟩
  have key : ∀ x : String,
      ("## SUMMARY\nExtraction " ++ "timeout") ++ (". Session had " ++ x) =
        "## SUMMARY\nExtraction timeout. " ++ ("Session had " ++ x) := by
    intro x
    rw [← String.append_assoc, ← String.append_assoc]
    congr 1
  show ("## SUMMARY\nExtraction " ++ "timeout") ++
      (". Session had " ++ (toString n ++ (" messages.\n\n" ++ stubTail))) = _
  rw [key (toString n ++ (" messages.\n\n" ++ stubTail))]
  rw [String.append_assoc "Session had " (toString n) (" messages.\n\n" ++ stubTail)]

/-! ### Claim C2 -/

/-- C2: the claim `len(format_context(docs, B)) <= 4*B` fails on the code.
The accumulation loop counts only document characters, never the seven
characters of each `"\n\n---\n\n"` separator, so two two-character documents
under `token_budget = 1` (four-character budget) produce the eleven-character
output `"aa\n\n---\n\naa"`. -/
theorem format_context_budget_exceeded :
    format_context ["aa", "aa"] 1 = "aa\n\n---\n\naa" ∧
      ¬ (format_context ["aa", "aa"] 1).length ≤ 4 * 1 := by
  exact ⟨rfl, by decide⟩

/-! ### Claim C3 -/

/-- C3 counterexample: at `max_chars = 0` the claimed bound
`len(output) ≤ len(marker) + K` fails.  Python evaluates `full[-0:]` as
`full[0:]`, the whole string, so a single one-character message yields the
28-character output `"...[truncated]...\n\n[USER]: x"` against the allowed
19 + 0. -/
theorem assemble_transcript_text_zero_budget_exceeds :
    ¬ (assemble_transcript_text
        [{ role := "user", content := "x", uuid := "", timestamp := "" }] 0).length
      ≤ truncationMarker.length + 0 := by decide

/-- Bound for the truncation branch of `assemble_transcript_text`, stated on
an arbitrary assembled string. -/
theorem assemble_bound_aux (full : String) (K : Int) (hK : 1 ≤ K) :
    ((if (full.length : Int) > K then truncationMarker ++ pySliceFrom full (-K) else full).length : Int)
      ≤ (truncationMarker.length : Int) + K := by
  split
  case isTrue h =>
    rw [String.length_append]
    have hslice : pySliceFrom full (-K) = pyDropChars full (full.length - K.toNat) := by
      unfold pySliceFrom
      rw [if_neg (by omega), neg_neg]
    rw [hslice, pyDropChars_length]
    omega
  case isFalse h =>
    omega

/-- C3 amended: for every message list and every `K ≥ 1`,
`len(assemble_transcript_text(ms, max_chars=K)) ≤ len(marker) + K`
(the claim restricted away from the `K = 0` slice quirk). -/
theorem assemble_transcript_text_length_bound (messages : List Message) (K : Int)
    (hK : 1 ≤ K) :
    ((assemble_transcript_text messages K).length : Int)
      ≤ (truncationMarker.length : Int) + K := by
  simp only [assemble_transcript_text]
  exact assemble_bound_aux _ K hK

/-- C3 witness: the amended bound evaluated at a concrete message list and
`K = 1`. -/
theorem assemble_transcript_text_length_bound_witness :
    (1 : Int) ≤ 1 ∧
      ((assemble_transcript_text
          [{ role := "user", content := "x", uuid := "", timestamp := "" }] 1).length : Int)
        ≤ (truncationMarker.length : Int) + 1 :=
  ⟨by norm_num,
    assemble_transcript_text_length_bound
      [{ role := "user", content := "x", uuid := "", timestamp := "" }] 1 (by norm_num)⟩

/-! ### Claim C4 -/

/-- C4: `run_claude_extraction` is a total function into `Option String`
(every exceptional path of the source is caught, so failure is the `none`
value and no exception escapes), and it returns a string exactly when the
child completed with exit status 0 and a stdout that is non-empty after
trimming, in which case the returned string is that trimmed stdout; on
deadline expiry, non-zero exit, empty trimmed output, or spawn failure the
result is `none`. -/
theorem run_claude_extraction_success_characterisation (outcome : ProcOutcome) (s : String) :
    run_claude_extraction outcome = some s ↔
      ∃ out rc, outcome = ProcOutcome.completed out rc ∧ rc = 0 ∧ pyStrip out = s ∧ s ≠ "" := by
  cases outcome with
  | completed out rc =>
    constructor
    · intro h
      by_cases h0 : rc = 0
      · by_cases hs : pyStrip out = ""
        · simp [run_claude_extraction, h0, hs] at h
        · simp [run_claude_extraction, h0, hs] at h
          exact ⟨out, rc, rfl, h0, h, h ▸ hs⟩
      · simp [run_claude_extraction, h0] at h
    · rintro ⟨o2, r2, heq, h0, hstrip, hne⟩
      injection heq with h1 h2
      subst h1; subst h2; subst h0
      simp [run_claude_extraction, hstrip, hne]
  | timeoutExpired => simp [run_claude_extraction]
  | spawnFailure => simp [run_claude_extraction]

/-! ### Claim C5 -/

/-- C5 counterexample: with stored state
`{last_capture_at: 100, session_id: "a", transcript_hash: "h1"}`, current
time 97, current session `"a"` with the distinct fingerprint `"h2"`, and a
configured minimum interval of `-5`, the code skips (it clamps the interval
to `max(0, -5) = 0` and `97 - 100 < 0`), while the claimed condition —
matching fingerprint, or elapsed seconds below the configured interval —
is false (`97 - 100 < -5` fails). -/
theorem throttle_skip_negative_interval_counterexample :
    shouldSkipIntermediateCapture
        (some (Json.obj [("last_capture_at", Json.num 100), ("session_id", Json.str "a"),
          ("transcript_hash", Json.str "h1")]))
        97 "a" "h2" (-5) = Except.ok true ∧
      ¬ (((("a" : String) = "a") ∧ (("h1" : String) = "h2")) ∨ ((97 : Int) - 100 < -5)) :=
  ⟨rfl, by decide⟩

/-- C5 amended: a lite capture whose stored throttle state reads back as
`st` is skipped if and only if the stored session id and fingerprint both
match the current ones, or fewer seconds than `max(0, interval)` — the
configured minimum interval clamped below at zero — have elapsed since the
stored capture time. -/
theorem throttle_skip_guard_characterisation (stateFileParse : Option Json)
    (st : StateFields) (now : Int) (sid thash : String) (mi : Int)
    (h : readStateFields (readIntermediateState stateFileParse) = Except.ok st) :
    shouldSkipIntermediateCapture stateFileParse now sid thash mi = Except.ok true ↔
      ((st.session_id = sid ∧ st.transcript_hash = thash) ∨
        now - st.last_capture_at < max 0 mi) := by
  unfold shouldSkipIntermediateCapture
  rw [h]
  show Except.ok (skipDecision st now sid thash mi) = Except.ok true ↔ _
  constructor
  · intro hsk
    have hb : skipDecision st now sid thash mi = true := by
      injection hsk
    unfold skipDecision at hb
    by_cases h1 : (st.session_id == sid && st.transcript_hash == thash) = true
    · simp only [beq_iff_eq, Bool.and_eq_true] at h1
      exact Or.inl ⟨by simpa using h1.1, by simpa using h1.2⟩
    · rw [if_neg h1] at hb
      by_cases h2 : now - st.last_capture_at < max 0 mi
      · exact Or.inr h2
      · rw [if_neg h2] at hb
        cases hb
  · intro hc
    unfold skipDecision
    rcases hc with ⟨hs, ht⟩ | h2
    · rw [if_pos (by simp [hs, ht])]
    · by_cases h1 : (st.session_id == sid && st.transcript_hash == thash) = true
      · rw [if_pos h1]
      · rw [if_neg h1, if_pos h2]

/-- C5 witness: the amended characterisation evaluated on a concrete stored
state that is skipped by the minimum-interval guard. -/
theorem throttle_skip_guard_characterisation_witness :
    readStateFields (readIntermediateState (some (Json.obj [("last_capture_at", Json.num 50),
        ("session_id", Json.str "s"), ("transcript_hash", Json.str "h")])))
      = Except.ok { last_capture_at := 50, session_id := "s", transcript_hash := "h" } ∧
    (shouldSkipIntermediateCapture
        (some (Json.obj [("last_capture_at", Json.num 50), ("session_id", Json.str "s"),
          ("transcript_hash", Json.str "h")]))
        100 "s" "h" 30 = Except.ok true ↔
      (((("s" : String) = "s") ∧ (("h" : String) = "h")) ∨ ((100 : Int) - 50 < max 0 30))) :=
  ⟨rfl,
    throttle_skip_guard_characterisation
      (some (Json.obj [("last_capture_at", Json.num 50), ("session_id", Json.str "s"),
        ("transcript_hash", Json.str "h")]))
      { last_capture_at := 50, session_id := "s", transcript_hash := "h" }
      100 "s" "h" 30 rfl⟩

/-! ### Claim C9 -/

/-- C9 counterexample: one well-shaped user record alone parses to exactly
one message, but appending the decodable line `42` makes `record.get("type")`
raise `AttributeError`, aborting the whole parse — the claimed per-line
independence ("skipped without aborting the rest") fails; likewise a user
record whose `message` value is the number `7` raises at
`msg.get("role", ...)` although it parses as a JSON record of type user. -/
theorem parse_transcript_bad_line_aborts :
    parse_transcript (some [some sampleRecordJson]) = Except.ok [Message.toPy sampleMessage] ∧
    parse_transcript (some [some sampleRecordJson, some (Json.num 42)])
      = Except.error PyErr.attributeError ∧
    parse_transcript (some [some (Json.obj [("type", Json.str "user"), ("message", Json.num 7)])])
      = Except.error PyErr.attributeError :=
  ⟨rfl, rfl, rfl⟩

/-- C9 amended: `parse_transcript` returns `[]` for a missing file without
raising; undecodable lines are skipped; and provided every decodable line is
a JSON object whose `message` value (for records of type user/assistant) is
an object or absent with string-typed text blocks, the parse succeeds with
exactly one message per record of type `"user"` or `"assistant"`, whose
stored role is the nested message object's role when present and otherwise
the record's type.  A decodable non-object line, a qualifying record with a
non-object `message` value, or a non-string text block raises and aborts the
entire parse. -/
theorem parse_transcript_characterisation (lines : List (Option Json))
    (hws : ∀ l ∈ lines, lineWellShaped l = true) :
    parse_transcript none = Except.ok [] ∧
    ∃ msgs : List PyMessage,
      parse_transcript (some lines) = Except.ok msgs ∧
      msgs.length = (qualRecordsJson lines).length ∧
      List.Forall₂ (fun (record : Json) (m : PyMessage) => m.role = recordRole record)
        (qualRecordsJson lines) msgs :=
  ⟨rfl, parseLines_wellShaped lines hws⟩

/-- C9 witness: the amended characterisation on a two-line file — one
well-shaped user record and one undecodable line. -/
theorem parse_transcript_characterisation_witness :
    (∀ l ∈ [some sampleRecordJson, none], lineWellShaped l = true) ∧
    (parse_transcript none = Except.ok [] ∧
      ∃ msgs : List PyMessage,
        parse_transcript (some [some sampleRecordJson, none]) = Except.ok msgs ∧
        msgs.length = (qualRecordsJson [some sampleRecordJson, none]).length ∧
        List.Forall₂ (fun (record : Json) (m : PyMessage) => m.role = recordRole record)
          (qualRecordsJson [some sampleRecordJson, none]) msgs) :=
  ⟨by decide, parse_transcript_characterisation [some sampleRecordJson, none] (by decide)⟩

/-! ### Claim C10 -/

/-- C10 counterexample: the distinct session ids `"aaaaaaaa1"` and
`"aaaaaaaa2"` share their first eight characters, so two same-day captures
for these different sessions produce the same filename, contrary to the
claim that different session ids never collide. -/
theorem sessionFilename_distinct_sessions_collide :
    sessionFilename "2026-05-06T00:00:00" "aaaaaaaa1"
        = sessionFilename "2026-05-06T00:00:00" "aaaaaaaa2" ∧
      ("aaaaaaaa1" : String) ≠ "aaaaaaaa2" := by
  exact ⟨rfl, by decide⟩

/-- Truncation used in the filename equals a plain eight-character prefix. -/
theorem safeId_eq_take (s : String) :
    (if s.length > 8 then pyTake s 8 else s) = pyTake s 8 := by
  split
  · rfl
  · next h =>
    apply String.ext
    show s.data = s.data.take 8
    have hle : s.data.length ≤ 8 := Nat.le_of_not_lt h
    exact (List.take_of_length_le hle).symm

/-- C10 amended: for timestamps at least ten characters long (every ISO-8601
timestamp), two `write_session_file` filenames coincide exactly when the UTC
dates (the first ten timestamp characters) agree and the first eight
characters of the session ids agree; distinct ids sharing that prefix
collide by design. -/
theorem sessionFilename_eq_characterisation (t1 t2 s1 s2 : String)
    (h1 : 10 ≤ t1.length) (h2 : 10 ≤ t2.length) :
    sessionFilename t1 s1 = sessionFilename t2 s2 ↔
      pyTake t1 10 = pyTake t2 10 ∧ pyTake s1 8 = pyTake s2 8 := by
  unfold sessionFilename
  rw [safeId_eq_take, safeId_eq_take]
  constructor
  · intro h
    have hd : (t1.data.take 10 ++ ("-".data ++ (s1.data.take 8 ++ ".md".data))) =
        (t2.data.take 10 ++ ("-".data ++ (s2.data.take 8 ++ ".md".data))) := by
      have hdata := congrArg String.data h
      simpa only [String.data_append, pyTake_data, List.append_assoc] using hdata
    have hlen : (t1.data.take 10).length = (t2.data.take 10).length := by
      rw [List.length_take, List.length_take]
      have e1 : 10 ≤ t1.data.length := h1
      have e2 : 10 ≤ t2.data.length := h2
      omega
    obtain ⟨hdate, hrest⟩ := List.append_inj hd hlen
    have hid : s1.data.take 8 = s2.data.take 8 :=
      List.append_cancel_right (List.append_cancel_left hrest)
    exact ⟨String.ext hdate, String.ext hid⟩
  · rintro ⟨e1, e2⟩
    rw [e1, e2]

/-! ### Claim C7 -/

/-- C7 counterexample: with a recency window of 7 days and fallback enabled
but an empty collection, `query_sessions` returns `([], [])` before issuing
any `collection.query` call, so the store is never "first queried with a
metadata filter" as the claim states for every retrieval with a positive
window. -/
theorem query_sessions_empty_collection_counterexample :
    query_sessions { count := 0, query := fun _ _ => [["doc"]] } 5 7 true "cut" = ([], []) ∧
      ¬ ∃ (qc : QueryCall) (rest : List QueryCall),
          qc.whereFilter ≠ none ∧
          (query_sessions { count := 0, query := fun _ _ => [["doc"]] } 5 7 true "cut").2
            = qc :: rest := by
  refine ⟨rfl, ?_⟩
  rintro ⟨qc, rest, _, h⟩
  simp [query_sessions] at h

/-- C7 amended: on a non-empty collection with a positive recency window,
the first query issued carries the `timestamp $gte cutoff` filter; the
unfiltered fallback query is issued — and its documents returned — exactly
when the filtered query yields zero documents and fallback is enabled; with
fallback disabled an empty filtered result is returned unchanged; and a
non-empty filtered result is returned from the single filtered query. -/
theorem query_sessions_recency_behaviour (store : VectorStore) (n d : Int) (fb : Bool)
    (cutoffIso : String) (h0 : store.count ≠ 0) (h1 : 0 < d) :
    (query_sessions store n d fb cutoffIso).2.head?
        = some { n_results := actualN store n
                 whereFilter := some { field := "timestamp", op := "$gte", cutoff := cutoffIso } } ∧
    (((query_sessions store n d fb cutoffIso).2.length = 2 ∧
        (query_sessions store n d fb cutoffIso).2.getLast?
          = some { n_results := actualN store n, whereFilter := none } ∧
        (query_sessions store n d fb cutoffIso).1
          = extract_documents (store.query (actualN store n) none)) ↔
      (extract_documents (store.query (actualN store n)
          (some { field := "timestamp", op := "$gte", cutoff := cutoffIso })) = [] ∧ fb = true)) ∧
    ((extract_documents (store.query (actualN store n)
          (some { field := "timestamp", op := "$gte", cutoff := cutoffIso })) = [] ∧ fb = false →
        query_sessions store n d fb cutoffIso
          = ([], [{ n_results := actualN store n
                    whereFilter := some { field := "timestamp", op := "$gte", cutoff := cutoffIso } }])) ∧
      (extract_documents (store.query (actualN store n)
          (some { field := "timestamp", op := "$gte", cutoff := cutoffIso })) ≠ [] →
        query_sessions store n d fb cutoffIso
          = (extract_documents (store.query (actualN store n)
              (some { field := "timestamp", op := "$gte", cutoff := cutoffIso })),
             [{ n_results := actualN store n
                whereFilter := some { field := "timestamp", op := "$gte", cutoff := cutoffIso } }]))) := by
  have hw : recencyWhereClause d cutoffIso
      = some { field := "timestamp", op := "$gte", cutoff := cutoffIso } := by
    unfold recencyWhereClause
    rw [if_neg (by omega)]
  unfold query_sessions
  rw [if_neg h0, hw]
  by_cases hfd : extract_documents (store.query (actualN store n)
      (some { field := "timestamp", op := "$gte", cutoff := cutoffIso })) = []
  · cases fb
    · simp [hfd]
    · simp [hfd]
  · have hne : (extract_documents (store.query (actualN store n)
        (some { field := "timestamp", op := "$gte", cutoff := cutoffIso }))).isEmpty = false := by
      cases hv : extract_documents (store.query (actualN store n)
          (some { field := "timestamp", op := "$gte", cutoff := cutoffIso })) with
      | nil => exact absurd hv hfd
      | cons a l => rfl
    simp [hne, hfd]

/-- C7 witness: the amended behaviour evaluated on a concrete two-document
store whose filtered response is empty, with fallback enabled. -/
theorem query_sessions_recency_behaviour_witness :
    sampleStore.count ≠ 0 ∧ (0 : Int) < 30 ∧
    ((query_sessions sampleStore 5 30 true "cut").2.head?
        = some { n_results := actualN sampleStore 5
                 whereFilter := some { field := "timestamp", op := "$gte", cutoff := "cut" } } ∧
    (((query_sessions sampleStore 5 30 true "cut").2.length = 2 ∧
        (query_sessions sampleStore 5 30 true "cut").2.getLast?
          = some { n_results := actualN sampleStore 5, whereFilter := none } ∧
        (query_sessions sampleStore 5 30 true "cut").1
          = extract_documents (sampleStore.query (actualN sampleStore 5) none)) ↔
      (extract_documents (sampleStore.query (actualN sampleStore 5)
          (some { field := "timestamp", op := "$gte", cutoff := "cut" })) = [] ∧ true = true)) ∧
    ((extract_documents (sampleStore.query (actualN sampleStore 5)
          (some { field := "timestamp", op := "$gte", cutoff := "cut" })) = [] ∧ true = false →
        query_sessions sampleStore 5 30 true "cut"
          = ([], [{ n_results := actualN sampleStore 5
                    whereFilter := some { field := "timestamp", op := "$gte", cutoff := "cut" } }])) ∧
      (extract_documents (sampleStore.query (actualN sampleStore 5)
          (some { field := "timestamp", op := "$gte", cutoff := "cut" })) ≠ [] →
        query_sessions sampleStore 5 30 true "cut"
          = (extract_documents (sampleStore.query (actualN sampleStore 5)
              (some { field := "timestamp", op := "$gte", cutoff := "cut" })),
             [{ n_results := actualN sampleStore 5
                whereFilter := some { field := "timestamp", op := "$gte", cutoff := "cut" } }])))) :=
  ⟨by decide, by decide,
    query_sessions_recency_behaviour sampleStore 5 30 true "cut" (by decide) (by decide)⟩

/-- C10 witness: the amended characterisation evaluated at a concrete
timestamp and two ids sharing an eight-character prefix. -/
theorem sessionFilename_eq_characterisation_witness :
    10 ≤ ("2026-05-06T01:02:03" : String).length ∧
      (sessionFilename "2026-05-06T01:02:03" "abcdefghi"
          = sessionFilename "2026-05-06T01:02:03" "abcXYZ" ↔
        pyTake "2026-05-06T01:02:03" 10 = pyTake "2026-05-06T01:02:03" 10 ∧
          pyTake "abcdefghi" 8 = pyTake "abcXYZ" 8) :=
  ⟨by decide,
    sessionFilename_eq_characterisation "2026-05-06T01:02:03" "2026-05-06T01:02:03"
      "abcdefghi" "abcXYZ" (by decide) (by decide)⟩

/-! ### Claim C1 -/

/-- C1 counterexample: two full-mode invocations whose transcripts parse to
a non-empty message list yet which write zero artifacts.  With the payload
`session_id` the number `5`, the write step reaches `len(session_id)` in
`write_session_file` and raises `TypeError`; with a record whose message
`role` is the number `5`, the parse succeeds but `msg["role"].upper()` in
`assemble_transcript_text` raises `AttributeError`.  Both refute "exactly
one artifact file is written". -/
theorem runCapture_full_zero_artifacts_counterexample :
    (runCapture envNumericSessionId Mode.full = Except.error PyErr.typeError ∧
      parse_transcript (envNumericSessionId.readFile "/t.jsonl")
        = Except.ok [Message.toPy sampleMessage]) ∧
    (runCapture envNumericRole Mode.full = Except.error PyErr.attributeError ∧
      parse_transcript (envNumericRole.readFile "/t.jsonl")
        = Except.ok [{ role := Json.num 5, content := "hi"
                       uuid := Json.str "", timestamp := Json.str "" }]) :=
  ⟨⟨rfl, rfl⟩, ⟨rfl, rfl⟩⟩

/-- C1 amended: a full-mode invocation whose hook payload is a truthy JSON
object carrying a string session id and a non-empty string transcript path,
whose working directory resolves, and whose transcript parses to a non-empty
list of well-shaped (string-field) messages, writes exactly one artifact:
the extraction output when `run_claude_extraction` returns text, and
otherwise a stub whose body contains `"Extraction timeout"` and the exact
parsed message count.  (A non-string session id or message role instead
raises before any write — see the counterexample.) -/
theorem runCapture_full_single_artifact (env : HookEnv) (kvs : List (String × Json))
    (sid tp pd : String) (ms : List Message)
    (hstdin : env.stdinParse = some (Json.obj kvs))
    (htruthy : pyTruthy (Json.obj kvs) = true)
    (hsid : pyOrJ ((kvs.lookup "session_id").getD Json.null)
      ((kvs.lookup "conversation_id").getD (Json.str "unknown")) = Json.str sid)
    (htp : pyOrJ ((kvs.lookup "transcript_path").getD Json.null) (Json.str "") = Json.str tp)
    (htpne : tp ≠ "")
    (hresolve : resolveProjectDir (Json.obj kvs) = Except.ok pd)
    (hparse : parse_transcript (env.readFile tp) = Except.ok (ms.map Message.toPy))
    (hne : ms ≠ []) :
    (∀ r, run_claude_extraction
          (env.proc (renderPrompt extractionPromptHead (assemble_transcript_text ms 50000)) 85)
        = some r →
      runCapture env Mode.full = Except.ok
        { writes := [write_session_file env.nowIso sid tp r]
          indexCalls := [write_session_file env.nowIso sid tp r]
          stateWrites := []
          extractionCalls :=
            [(renderPrompt extractionPromptHead (assemble_transcript_text ms 50000), 85)] }) ∧
    (run_claude_extraction
          (env.proc (renderPrompt extractionPromptHead (assemble_transcript_text ms 50000)) 85)
        = none →
      runCapture env Mode.full = Except.ok
        { writes := [write_session_file env.nowIso sid tp (stub_body ms.length "timeout")]
          indexCalls := [write_session_file env.nowIso sid tp (stub_body ms.length "timeout")]
          stateWrites := []
          extractionCalls :=
            [(renderPrompt extractionPromptHead (assemble_transcript_text ms 50000), 85)] } ∧
      containsText (stub_body ms.length "timeout") "Extraction timeout" ∧
      containsText (stub_body ms.length "timeout") ("Session had " ++ toString ms.length)) := by
  have htpt : pyTruthy (Json.str tp) = true := by
    simp [pyTruthy, bne_iff_ne]
    exact htpne
  have hie : (ms.map Message.toPy).isEmpty = false := map_toPy_isEmpty_false hne
  have hlen : (ms.map Message.toPy).length = ms.length := List.length_map ms Message.toPy
  have hrun : runCapture env Mode.full =
      finishCapture env Mode.full (Json.str sid) (Json.str tp)
        (assemble_transcript_text ms 50000) "" extractionPromptHead 85 ms.length := by
    unfold runCapture
    rw [hstdin]
    simp only [readHookInput, Option.getD_some, htruthy, pyDictGet,
      Except.instMonad, Except.bind, hsid, htp, hresolve, asPathString, hparse,
      assemble_toPy, hie, hlen, htpt, Bool.true_eq_false, if_false, ite_false,
      Bool.false_eq_true]
  rw [hrun]
  constructor
  · intro r hr
    have hrne : r ≠ "" := run_claude_extraction_ne_empty hr
    simp only [renderPrompt] at hr
    unfold finishCapture
    simp only [renderPrompt, hr]
    simp [pyTruthyOptStr, bne_iff_ne, hrne, write_session_file_j, pyStr,
      Except.instMonad, Except.bind, Except.map, Functor.map, pure, Except.pure]
  · intro hnone
    simp only [renderPrompt] at hnone
    unfold finishCapture
    simp only [renderPrompt, hnone]
    refine ⟨?_, stub_contains_timeout ms.length, stub_contains_count ms.length⟩
    simp [pyTruthyOptStr, write_session_file_j, pyStr,
      Except.instMonad, Except.bind, Except.map, Functor.map, pure, Except.pure]

/-- C1 witness: the full-mode pipeline on `sampleEnv`, whose extraction
times out, writes exactly the one-message timeout stub. -/
theorem runCapture_full_single_artifact_witness :
    runCapture sampleEnv Mode.full = Except.ok
        { writes := [write_session_file "2026-02-24T10:00:00+00:00" "sess-1" "/t.jsonl"
            (stub_body 1 "timeout")]
          indexCalls := [write_session_file "2026-02-24T10:00:00+00:00" "sess-1" "/t.jsonl"
            (stub_body 1 "timeout")]
          stateWrites := []
          extractionCalls :=
            [(renderPrompt extractionPromptHead (assemble_transcript_text [sampleMessage] 50000), 85)] } ∧
      containsText (stub_body 1 "timeout") "Extraction timeout" ∧
      containsText (stub_body 1 "timeout") ("Session had " ++ toString 1) :=
  (runCapture_full_single_artifact sampleEnv
    [("session_id", Json.str "sess-1"), ("transcript_path", Json.str "/t.jsonl"),
      ("cwd", Json.str "/proj")]
    "sess-1" "/t.jsonl" "/proj" [sampleMessage]
    rfl rfl rfl rfl (by decide) rfl rfl (by decide)).2 rfl

/-! ### Claim C6 -/

/-- C6: a lite-mode invocation that reaches and passes the throttle check
but whose extraction returns nothing writes no artifact and issues no
indexing call, yet still overwrites the throttle state with the current
session id, content fingerprint and capture time. -/
theorem runCapture_lite_failure_marks_state_only (env : HookEnv) (kvs : List (String × Json))
    (sid tp pd : String) (ms : List Message) (mc ts mi : Int)
    (hstdin : env.stdinParse = some (Json.obj kvs))
    (htruthy : pyTruthy (Json.obj kvs) = true)
    (hsid : pyOrJ ((kvs.lookup "session_id").getD Json.null)
      ((kvs.lookup "conversation_id").getD (Json.str "unknown")) = Json.str sid)
    (htp : pyOrJ ((kvs.lookup "transcript_path").getD Json.null) (Json.str "") = Json.str tp)
    (htpne : tp ≠ "")
    (hresolve : resolveProjectDir (Json.obj kvs) = Except.ok pd)
    (hparse : parse_transcript (env.readFile tp) = Except.ok (ms.map Message.toPy))
    (hne : ms ≠ [])
    (henabled : pyTruthy (cfgGet env.config "intermediate_capture_enabled" (Json.bool true)) = true)
    (hmc : pyInt (cfgGet env.config "intermediate_capture_max_transcript_chars" (Json.num 12000))
      = Except.ok mc)
    (hts : pyInt (cfgGet env.config "intermediate_capture_timeout_seconds" (Json.num 20))
      = Except.ok ts)
    (hmi : pyInt (cfgGet env.config "intermediate_capture_min_interval_seconds" (Json.num 180))
      = Except.ok mi)
    (hskip : shouldSkipIntermediateCapture env.stateFileParse env.now sid
      (env.hashFn (assemble_transcript_text ms mc)) mi = Except.ok false)
    (hext : run_claude_extraction
      (env.proc (renderPrompt intermediatePromptHead (assemble_transcript_text ms mc)) ts)
      = none) :
    runCapture env Mode.lite = Except.ok
      { writes := []
        indexCalls := []
        stateWrites := [{ session_id := sid
                          transcript_hash := env.hashFn (assemble_transcript_text ms mc)
                          last_capture_at := env.now
                          updated_at := env.nowIso }]
        extractionCalls :=
          [(renderPrompt intermediatePromptHead (assemble_transcript_text ms mc), ts)] } := by
  have htpt : pyTruthy (Json.str tp) = true := by
    simp [pyTruthy, bne_iff_ne]
    exact htpne
  have hie : (ms.map Message.toPy).isEmpty = false := map_toPy_isEmpty_false hne
  have hlen : (ms.map Message.toPy).length = ms.length := List.length_map ms Message.toPy
  have hrun : runCapture env Mode.lite =
      finishCapture env Mode.lite (Json.str sid) (Json.str tp)
        (assemble_transcript_text ms mc) (env.hashFn (assemble_transcript_text ms mc))
        intermediatePromptHead ts ms.length := by
    unfold runCapture
    rw [hstdin]
    simp only [readHookInput, Option.getD_some, htruthy, pyDictGet,
      Except.instMonad, Except.bind, hsid, htp, hresolve, asPathString, hparse,
      assemble_toPy, hie, hlen, htpt, Bool.true_eq_false, if_false, ite_false,
      Bool.false_eq_true, henabled, hmc, hts, hmi, pyStr, hskip]
  rw [hrun]
  simp only [renderPrompt] at hext
  unfold finishCapture
  simp only [renderPrompt, hext]
  simp [pyTruthyOptStr, mkStateWrite, pyStr, pure, Except.pure]

/-- C6 witness: the lite pipeline on `sampleEnv` (defaults enabled, stale
state, extraction timing out) records only the throttle state. -/
theorem runCapture_lite_failure_marks_state_only_witness :
    runCapture sampleEnv Mode.lite = Except.ok
      { writes := []
        indexCalls := []
        stateWrites := [{ session_id := "sess-1"
                          transcript_hash := "fp"
                          last_capture_at := 1000
                          updated_at := "2026-02-24T10:00:00+00:00" }]
        extractionCalls :=
          [(renderPrompt intermediatePromptHead (assemble_transcript_text [sampleMessage] 12000), 20)] } :=
  runCapture_lite_failure_marks_state_only sampleEnv
    [("session_id", Json.str "sess-1"), ("transcript_path", Json.str "/t.jsonl"),
      ("cwd", Json.str "/proj")]
    "sess-1" "/t.jsonl" "/proj" [sampleMessage] 12000 20 180
    rfl rfl rfl rfl (by decide) rfl rfl (by decide) rfl rfl rfl rfl rfl rfl

/-! ### Claim C8 -/

/-- C8: the claim promises a silent return for any stdin that is not the
expected hook JSON object, but a decodable non-object payload such as `5`
passes `read_hook_input` unchanged (contradicting its documented `dict`
return), is truthy, and then `hook_input.get("session_id")` raises
`AttributeError`, so the process terminates abnormally instead of returning
silently. -/
theorem runCapture_nonobject_stdin_raises :
    runCapture { sampleEnv with stdinParse := some (Json.num 5) } Mode.full
      = Except.error PyErr.attributeError := rfl

end TheHook
